import Mathlib

set_option maxRecDepth 100000

/-!
Verification of the Visual Metric Extraction Engine of the AI-Design-Analyzer
repository.  The definitions below are a shallow embedding of the two analyzer
classes in `src/unnamed/part_002` (`AIDesignAnalyzer` and
`AdvancedDesignAnalyzer`).  JavaScript numbers are modelled as `ℚ` where the
code only performs field arithmetic, comparisons, `Math.floor`, `Math.round`,
`Math.min` and `Math.max`, and as `ℝ` where the WCAG gamma exponentiation
`Math.pow(x, 2.4)` or `Math.sqrt` appears.  Hex colour strings are kept as
`String`, parsed exactly like the regular expression
`^#?([a-f\d]{2})([a-f\d]{2})([a-f\d]{2})$/i` of the source.
-/

/-- Value of a single hexadecimal digit, case-insensitive; `none` for any other
character.  Models the character class `[a-f\d]` (with the `i` flag) of the
regex used by `hexToRgb`. -/
def hexDigitVal (c : Char) : Option Nat :=
  if ('0' ≤ c ∧ c ≤ '9') then some (c.toNat - '0'.toNat)
  else if ('a' ≤ c ∧ c ≤ 'f') then some (c.toNat - 'a'.toNat + 10)
  else if ('A' ≤ c ∧ c ≤ 'F') then some (c.toNat - 'A'.toNat + 10)
  else none

/-- Value of a two-hex-digit group, as parsed by `parseInt(_, 16)` on one
capture group of the regex. -/
def hexPairVal (c1 c2 : Char) : Option Nat :=
  match hexDigitVal c1, hexDigitVal c2 with
  | some h, some l => some (16 * h + l)
  | _, _ => none

/-- Matching of exactly six hex digits, grouped into the three colour
channels. -/
def hexMatch6 : List Char → Option (Nat × Nat × Nat)
  | [a, b, c, d, e, f] =>
    match hexPairVal a b, hexPairVal c d, hexPairVal e f with
    | some r, some g, some bl => some (r, g, bl)
    | _, _, _ => none
  | _ => none

/-- The full anchored regex `^#?([a-f\d]{2})([a-f\d]{2})([a-f\d]{2})$/i`:
an optional leading hash sign followed by six hex digits. -/
def parseHexColor (s : String) : Option (Nat × Nat × Nat) :=
  match s.toList with
  | '#' :: rest => hexMatch6 rest
  | l => hexMatch6 l

namespace AIDesignAnalyzer

/-- `hexToRgb` (src/unnamed/part_002, lines 472-479): parse with the regex and
fall back to `[0, 0, 0]` when it does not match.  The JS array `[r, g, b]` is
modelled as a triple. -/
def hexToRgb (s : String) : Nat × Nat × Nat := (parseHexColor s).getD (0, 0, 0)

/-- `padStart(2, '0')` on a digit string. -/
def pad2 (l : List Char) : List Char :=
  if l.length < 2 then List.replicate (2 - l.length) '0' ++ l else l

/-- One channel of `rgbToHex`: `x.toString(16).padStart(2, '0')`; JS
`toString(16)` produces lowercase digits, as `Nat.toDigits 16` does. -/
def hexByte (n : Nat) : List Char := pad2 (Nat.toDigits 16 n)

/-- `rgbToHex` (lines 465-470): the hash sign followed by the three padded
lowercase hex bytes. -/
def rgbToHex (r g b : Nat) : String := ⟨'#' :: (hexByte r ++ hexByte g ++ hexByte b)⟩

end AIDesignAnalyzer

/-- Parsing of exactly one two-hex-digit group (helper for the round-trip
proof). -/
def parsePair2 : List Char → Option Nat
  | [c1, c2] => hexPairVal c1 c2
  | _ => none

lemma hexByte_parse : ∀ n, n < 256 → parsePair2 (AIDesignAnalyzer.hexByte n) = some n := by decide

lemma hexByte_length : ∀ n, n < 256 → (AIDesignAnalyzer.hexByte n).length = 2 := by decide

lemma hexByte_two (n : Nat) (h : n < 256) :
    ∃ c1 c2, AIDesignAnalyzer.hexByte n = [c1, c2] :=
  List.length_eq_two.mp (hexByte_length n h)

/-- C10: for every byte triple, `hexToRgb` inverts `rgbToHex` exactly, and any
string rejected by the six-hex-digit pattern is mapped to `(0, 0, 0)` instead
of failing. -/
theorem claim10_hex_roundtrip :
    (∀ r g b : Nat, r ≤ 255 → g ≤ 255 → b ≤ 255 →
      AIDesignAnalyzer.hexToRgb (AIDesignAnalyzer.rgbToHex r g b) = (r, g, b)) ∧
    (∀ s : String, parseHexColor s = none → AIDesignAnalyzer.hexToRgb s = (0, 0, 0)) := by
  constructor
  · intro r g b hr hg hb
    obtain ⟨r1, r2, hrc⟩ := hexByte_two r (by omega)
    obtain ⟨g1, g2, hgc⟩ := hexByte_two g (by omega)
    obtain ⟨b1, b2, hbc⟩ := hexByte_two b (by omega)
    have hpr := hexByte_parse r (by omega)
    have hpg := hexByte_parse g (by omega)
    have hpb := hexByte_parse b (by omega)
    rw [hrc] at hpr
    rw [hgc] at hpg
    rw [hbc] at hpb
    simp only [parsePair2] at hpr hpg hpb
    unfold AIDesignAnalyzer.hexToRgb AIDesignAnalyzer.rgbToHex parseHexColor
    rw [hrc, hgc, hbc]
    simp [String.toList, hexMatch6, hpr, hpg, hpb]
  · intro s h
    unfold AIDesignAnalyzer.hexToRgb
    rw [h]
    rfl

namespace AIDesignAnalyzer

/-- `getLightness` (lines 481-487): HSL lightness `(max + min) / 2 * 100` over
the 0-1 normalized channels.  Only rational arithmetic occurs, so the value is
kept in `ℚ`. -/
def getLightness (hex : String) : ℚ :=
  let rgb := hexToRgb hex
  let r : ℚ := rgb.1 / 255
  let g : ℚ := rgb.2.1 / 255
  let b : ℚ := rgb.2.2 / 255
  (max r (max g b) + min r (min g b)) / 2 * 100

/-- The fixed reference palette of `quantizeToWebColors` (lines 190-196), in
declaration order. -/
def webColors : List String :=
  ["#FF0000", "#00FF00", "#0000FF", "#FFFF00", "#FF00FF", "#00FFFF",
   "#FF6B6B", "#4ECDC4", "#45B7D1", "#96CEB4", "#FFEAA7", "#DDA0DD",
   "#98D8C8", "#F7DC6F", "#BB8FCE", "#85C1E9", "#F8C471", "#82E0AA",
   "#E74C3C", "#3498DB", "#2ECC71", "#F39C12", "#9B59B6", "#1ABC9C",
   "#000000", "#FFFFFF", "#333333", "#666666", "#999999", "#CCCCCC"]

/-- Sum of squared channel differences: the radicand of `colorDistance`
(lines 506-510). -/
def colorDistSq (hex1 hex2 : String) : ℤ :=
  let c1 := hexToRgb hex1
  let c2 := hexToRgb hex2
  ((c1.1 : ℤ) - (c2.1 : ℤ)) ^ 2 + ((c1.2.1 : ℤ) - (c2.2.1 : ℤ)) ^ 2 +
    ((c1.2.2 : ℤ) - (c2.2.2 : ℤ)) ^ 2

/-- `colorDistance` (lines 506-510): the Euclidean RGB distance
`Math.sqrt((r1-r2)** 2 + (g1-g2)** 2 + (b1-b2)** 2)`. -/
noncomputable def colorDistance (hex1 hex2 : String) : ℝ :=
  Real.sqrt ((colorDistSq hex1 hex2 : ℝ))

/-- One iteration of the `quantizeToWebColors` loop: keep the new colour only
when its distance is strictly below the running minimum (`none` plays the role
of the initial `Infinity`).  The loop compares `Math.sqrt` values; since the
square root is strictly monotone the comparison on the (integer) radicands
made here selects exactly the same colour — see `colorDistance_lt_iff`. -/
def selStep (f : String → ℤ) (acc : String × Option ℤ) (w : String) : String × Option ℤ :=
  match acc with
  | (_, none) => (w, some (f w))
  | (c, some m) => if f w < m then (w, some (f w)) else (c, some m)

/-- `quantizeToWebColors` (lines 189-210): nearest reference-palette entry,
first match winning ties (the update uses a strict `<`).  The initial state is
`closestColor = webColors[0]`, `minDistance = Infinity`. -/
def quantizeToWebColors (hex : String) : String :=
  (webColors.foldl (selStep (fun w => colorDistSq hex w)) ("#FF0000", none)).1

lemma colorDistSq_nonneg (hex1 hex2 : String) : 0 ≤ colorDistSq hex1 hex2 := by
  unfold colorDistSq
  positivity

lemma colorDistance_le_iff (h a b : String) :
    colorDistance h a ≤ colorDistance h b ↔ colorDistSq h a ≤ colorDistSq h b := by
  unfold colorDistance
  rw [Real.sqrt_le_sqrt_iff (by exact_mod_cast colorDistSq_nonneg h b)]
  exact_mod_cast Iff.rfl

/-- Characterisation of the strict-minimum fold from an already-initialised
accumulator: either nothing ever beat `m`, or the result is the first element
that realises the (strict) running minimum. -/
lemma selStep_foldl_spec (f : String → ℤ) :
    ∀ (l : List String) (c : String) (m : ℤ),
      (l.foldl (selStep f) (c, some m) = (c, some m) ∧ ∀ w ∈ l, m ≤ f w) ∨
      (∃ pre c' suf, l = pre ++ c' :: suf ∧
        l.foldl (selStep f) (c, some m) = (c', some (f c')) ∧ f c' < m ∧
        (∀ p ∈ pre, f c' < f p) ∧ (∀ w ∈ l, f c' ≤ f w)) := by
  intro l
  induction l with
  | nil => intro c m; left; exact ⟨rfl, by simp⟩
  | cons a t ih =>
    intro c m
    by_cases ha : f a < m
    · have hstep : selStep f (c, some m) a = (a, some (f a)) := by
        simp [selStep, ha]
      rcases ih a (f a) with ⟨heq, hall⟩ | ⟨pre, c', suf, hsplit, heq, hlt, hpre, hall⟩
      · right
        refine ⟨[], a, t, by simp, ?_, ha, by simp, ?_⟩
        · simpa [hstep] using heq
        · intro w hw
          rcases List.mem_cons.mp hw with h | h
          · exact le_of_eq (by rw [h])
          · exact hall w h
      · right
        refine ⟨a :: pre, c', suf, by rw [hsplit]; rfl, ?_, lt_trans hlt ha, ?_, ?_⟩
        · simpa [hstep] using heq
        · intro p hp
          rcases List.mem_cons.mp hp with h | h
          · rw [h]; exact hlt
          · exact hpre p h
        · intro w hw
          rcases List.mem_cons.mp hw with h | h
          · rw [h]; exact le_of_lt hlt
          · exact hall w h
    · have hstep : selStep f (c, some m) a = (c, some m) := by
        simp [selStep, ha]
      rcases ih c m with ⟨heq, hall⟩ | ⟨pre, c', suf, hsplit, heq, hlt, hpre, hall⟩
      · left
        constructor
        · simpa [hstep] using heq
        · intro w hw
          rcases List.mem_cons.mp hw with h | h
          · rw [h]; exact not_lt.mp ha
          · exact hall w h
      · right
        refine ⟨a :: pre, c', suf, by rw [hsplit]; rfl, ?_, hlt, ?_, ?_⟩
        · simpa [hstep] using heq
        · intro p hp
          rcases List.mem_cons.mp hp with h | h
          · rw [h]; exact lt_of_lt_of_le hlt (not_lt.mp ha)
          · exact hpre p h
        · intro w hw
          rcases List.mem_cons.mp hw with h | h
          · rw [h]; exact le_of_lt (lt_of_lt_of_le hlt (not_lt.mp ha))
          · exact hall w h

lemma selStep_foldl_none (f : String → ℤ) (c0 a : String) (t : List String) :
    (a :: t).foldl (selStep f) (c0, none) = t.foldl (selStep f) (a, some (f a)) := by
  rw [List.foldl_cons]
  rfl

lemma quantize_spec (hex : String) :
    ∃ pre suf, webColors = pre ++ quantizeToWebColors hex :: suf ∧
      (∀ p ∈ pre, colorDistSq hex (quantizeToWebColors hex) < colorDistSq hex p) ∧
      (∀ w ∈ webColors, colorDistSq hex (quantizeToWebColors hex) ≤ colorDistSq hex w) := by
  have hweb : webColors = "#FF0000" :: webColors.tail := rfl
  set f := fun w => colorDistSq hex w with hf
  have hmain := selStep_foldl_spec f webColors.tail ("#FF0000") (f ("#FF0000"))
  have hq : quantizeToWebColors hex =
      (webColors.tail.foldl (selStep f) ("#FF0000", some (f ("#FF0000")))).1 := by
    unfold quantizeToWebColors
    conv_lhs => rw [hweb]
    rw [selStep_foldl_none]
  have hmem : ∀ w ∈ webColors, w = "#FF0000" ∨ w ∈ webColors.tail := by
    intro w hw
    rw [hweb] at hw
    exact List.mem_cons.mp hw
  rcases hmain with ⟨heq, hall⟩ | ⟨pre, c', suf, hsplit, heq, hlt, hpre, hall⟩
  · rw [heq] at hq
    refine ⟨[], webColors.tail, ?_, by simp, ?_⟩
    · rw [hq]
      exact hweb
    · intro w hw
      rw [hq]
      rcases hmem w hw with h | h
      · rw [h]
      · exact hall w h
  · rw [heq] at hq
    refine ⟨"#FF0000" :: pre, suf, ?_, ?_, ?_⟩
    · rw [hq, hweb, hsplit]
      rfl
    · intro p hp
      rw [hq]
      rcases List.mem_cons.mp hp with h | h
      · rw [h]; exact hlt
      · exact hpre p h
    · intro w hw
      rw [hq]
      rcases hmem w hw with h | h
      · rw [h]; exact le_of_lt hlt
      · exact hall w h

end AIDesignAnalyzer

/-- C8: colour quantization is a pure nearest-neighbour function into the fixed
reference palette under Euclidean RGB distance; the returned bucket occurs in
`webColors`, every palette entry strictly closer would have to come later (so
ties are broken by the first match in declaration order), and no entry is
closer in Euclidean distance. -/
theorem claim8_quantize_nearest (hex : String) :
    ∃ pre suf, AIDesignAnalyzer.webColors = pre ++ AIDesignAnalyzer.quantizeToWebColors hex :: suf ∧
      (∀ p ∈ pre, AIDesignAnalyzer.colorDistSq hex (AIDesignAnalyzer.quantizeToWebColors hex) <
        AIDesignAnalyzer.colorDistSq hex p) ∧
      (∀ w ∈ AIDesignAnalyzer.webColors,
        AIDesignAnalyzer.colorDistance hex (AIDesignAnalyzer.quantizeToWebColors hex) ≤
          AIDesignAnalyzer.colorDistance hex w) := by
  obtain ⟨pre, suf, hsplit, hpre, hall⟩ := AIDesignAnalyzer.quantize_spec hex
  exact ⟨pre, suf, hsplit, hpre, fun w hw =>
    (AIDesignAnalyzer.colorDistance_le_iff hex _ w).mpr (hall w hw)⟩

theorem claim8_witness :
    ∃ pre suf, AIDesignAnalyzer.webColors =
        pre ++ AIDesignAnalyzer.quantizeToWebColors ("#123456") :: suf ∧
      (∀ p ∈ pre, AIDesignAnalyzer.colorDistSq ("#123456")
          (AIDesignAnalyzer.quantizeToWebColors ("#123456")) <
        AIDesignAnalyzer.colorDistSq ("#123456") p) ∧
      (∀ w ∈ AIDesignAnalyzer.webColors,
        AIDesignAnalyzer.colorDistance ("#123456")
            (AIDesignAnalyzer.quantizeToWebColors ("#123456")) ≤
          AIDesignAnalyzer.colorDistance ("#123456") w) :=
  claim8_quantize_nearest ("#123456")

namespace AIDesignAnalyzer

/-- The channel linearisation performed inside `getLuminance` (lines 497-504):
`c = c / 255; c <= 0.03928 ? c / 12.92 : Math.pow((c + 0.055) / 1.055, 2.4)`.
The gamma power forces a real-valued model. -/
noncomputable def linearizeChannel (c : ℕ) : ℝ :=
  if ((c : ℝ) / 255) ≤ 0.03928 then ((c : ℝ) / 255) / 12.92
  else (((c : ℝ) / 255 + 0.055) / 1.055) ^ (2.4 : ℝ)

/-- `getLuminance` (lines 497-504): WCAG relative luminance
`0.2126 r + 0.7152 g + 0.0722 b` over the linearised channels of the parsed
hex colour. -/
noncomputable def getLuminance (hex : String) : ℝ :=
  let rgb := hexToRgb hex
  0.2126 * linearizeChannel rgb.1 + 0.7152 * linearizeChannel rgb.2.1 +
    0.0722 * linearizeChannel rgb.2.2

/-- `calculateContrastRatio` (lines 489-495):
`(brightest + 0.05) / (darkest + 0.05)` where brightest/darkest are the
larger/smaller of the two luminances (the source's `lum1`/`lum2` locals are
inlined). -/
noncomputable def calculateContrastRatio (hex1 hex2 : String) : ℝ :=
  (max (getLuminance hex1) (getLuminance hex2) + 0.05) /
    (min (getLuminance hex1) (getLuminance hex2) + 0.05)

end AIDesignAnalyzer

namespace AdvancedDesignAnalyzer

/-- `hexToRgb` of the second analyzer class (lines 1322-1329); identical to the
first class's implementation. -/
def hexToRgb (s : String) : Nat × Nat × Nat := (parseHexColor s).getD (0, 0, 0)

/-- `getLuminance` of the second analyzer class (lines 1296-1302): same WCAG
formula, taking the three channels directly. -/
noncomputable def getLuminance (r g b : ℕ) : ℝ :=
  0.2126 * AIDesignAnalyzer.linearizeChannel r + 0.7152 * AIDesignAnalyzer.linearizeChannel g +
    0.0722 * AIDesignAnalyzer.linearizeChannel b

/-- `getLuminanceFromHex` (lines 1304-1307). -/
noncomputable def getLuminanceFromHex (hex : String) : ℝ :=
  getLuminance (hexToRgb hex).1 (hexToRgb hex).2.1 (hexToRgb hex).2.2

/-- `calculateColorContrast` (lines 1337-1343): the same contrast-ratio
formula as `calculateContrastRatio` of the first class. -/
noncomputable def calculateColorContrast (hex1 hex2 : String) : ℝ :=
  (max (getLuminanceFromHex hex1) (getLuminanceFromHex hex2) + 0.05) /
    (min (getLuminanceFromHex hex1) (getLuminanceFromHex hex2) + 0.05)

end AdvancedDesignAnalyzer

/-- Modelled from the spec, for the comparison in C6 (§4.4): "linearize each
channel (gamma-correct: values ≤0.03928 divided by 12.92, else
`((c+0.055)/1.055)^2.4`)", over a 0-1 normalised channel. -/
noncomputable def wcagLinearize (c : ℝ) : ℝ :=
  if c ≤ 0.03928 then c / 12.92 else ((c + 0.055) / 1.055) ^ (2.4 : ℝ)

/-- Modelled from the spec, for the comparison in C6 (§4.4): "then weight
0.2126/0.7152/0.0722 for R/G/B". -/
noncomputable def wcagRelativeLuminance (r g b : ℕ) : ℝ :=
  0.2126 * wcagLinearize ((r : ℝ) / 255) + 0.7152 * wcagLinearize ((g : ℝ) / 255) +
    0.0722 * wcagLinearize ((b : ℝ) / 255)

lemma linearizeChannel_eq_wcag (c : ℕ) :
    AIDesignAnalyzer.linearizeChannel c = wcagLinearize ((c : ℝ) / 255) := rfl

lemma linearizeChannel_zero : AIDesignAnalyzer.linearizeChannel 0 = 0 := by
  unfold AIDesignAnalyzer.linearizeChannel
  rw [if_pos (by norm_num)]
  norm_num

lemma linearizeChannel_255 : AIDesignAnalyzer.linearizeChannel 255 = 1 := by
  unfold AIDesignAnalyzer.linearizeChannel
  rw [if_neg (by norm_num)]
  have h : ((255 : ℕ) : ℝ) / 255 + 0.055 = 1.055 := by norm_num
  rw [h]
  have h2 : (1.055 : ℝ) / 1.055 = 1 := by norm_num
  rw [h2, Real.one_rpow]

lemma linearizeChannel_nonneg (c : ℕ) : 0 ≤ AIDesignAnalyzer.linearizeChannel c := by
  unfold AIDesignAnalyzer.linearizeChannel
  split
  · positivity
  · positivity

lemma getLuminance_nonneg (hex : String) : 0 ≤ AIDesignAnalyzer.getLuminance hex := by
  unfold AIDesignAnalyzer.getLuminance
  have h1 := linearizeChannel_nonneg (AIDesignAnalyzer.hexToRgb hex).1
  have h2 := linearizeChannel_nonneg (AIDesignAnalyzer.hexToRgb hex).2.1
  have h3 := linearizeChannel_nonneg (AIDesignAnalyzer.hexToRgb hex).2.2
  positivity

lemma luminance_black : AIDesignAnalyzer.getLuminance ("#000000") = 0 := by
  have h : AIDesignAnalyzer.hexToRgb ("#000000") = (0, 0, 0) := by decide
  unfold AIDesignAnalyzer.getLuminance
  rw [h]
  simp [linearizeChannel_zero]

lemma luminance_white : AIDesignAnalyzer.getLuminance ("#FFFFFF") = 1 := by
  have h : AIDesignAnalyzer.hexToRgb ("#FFFFFF") = (255, 255, 255) := by decide
  unfold AIDesignAnalyzer.getLuminance
  rw [h]
  simp [linearizeChannel_255]
  norm_num

lemma luminance_green : AIDesignAnalyzer.getLuminance ("#00FF00") = 0.7152 := by
  have h : AIDesignAnalyzer.hexToRgb ("#00FF00") = (0, 255, 0) := by decide
  unfold AIDesignAnalyzer.getLuminance
  rw [h]
  simp [linearizeChannel_zero, linearizeChannel_255]

lemma contrast_ge_one (hex1 hex2 : String) :
    1 ≤ AIDesignAnalyzer.calculateContrastRatio hex1 hex2 := by
  unfold AIDesignAnalyzer.calculateContrastRatio
  have h1 := getLuminance_nonneg hex1
  have h2 := getLuminance_nonneg hex2
  have hmin : (0 : ℝ) < min (AIDesignAnalyzer.getLuminance hex1)
      (AIDesignAnalyzer.getLuminance hex2) + 0.05 := by
    have := le_min h1 h2
    linarith
  rw [le_div_iff₀ hmin]
  have := min_le_max (a := AIDesignAnalyzer.getLuminance hex1)
    (b := AIDesignAnalyzer.getLuminance hex2)
  linarith

/-- C5: the contrast ratio is symmetric in its two arguments and always at
least `1`, and the second analyzer class's `calculateColorContrast` computes
the very same function. -/
theorem claim5_contrast_symmetric_ge_one (hex1 hex2 : String) :
    AIDesignAnalyzer.calculateContrastRatio hex1 hex2 =
      AIDesignAnalyzer.calculateContrastRatio hex2 hex1 ∧
    1 ≤ AIDesignAnalyzer.calculateContrastRatio hex1 hex2 ∧
    AdvancedDesignAnalyzer.calculateColorContrast hex1 hex2 =
      AIDesignAnalyzer.calculateContrastRatio hex1 hex2 := by
  refine ⟨?_, contrast_ge_one hex1 hex2, rfl⟩
  unfold AIDesignAnalyzer.calculateContrastRatio
  rw [max_comm, min_comm]

/-- C6: both luminance implementations compute exactly the WCAG 2.x relative
luminance of the parsed channels, and the luminance of pure black is `0.0`
and of pure white is `1.0` (exactly, in the real-number model). -/
theorem claim6_luminance_wcag :
    (∀ hex : String, AIDesignAnalyzer.getLuminance hex =
      wcagRelativeLuminance (AIDesignAnalyzer.hexToRgb hex).1
        (AIDesignAnalyzer.hexToRgb hex).2.1 (AIDesignAnalyzer.hexToRgb hex).2.2) ∧
    (∀ r g b : ℕ, AdvancedDesignAnalyzer.getLuminance r g b = wcagRelativeLuminance r g b) ∧
    AIDesignAnalyzer.getLuminance ("#000000") = 0 ∧
    AIDesignAnalyzer.getLuminance ("#FFFFFF") = 1 :=
  ⟨fun _ => rfl, fun _ _ _ => rfl, luminance_black, luminance_white⟩

namespace AIDesignAnalyzer

/-- `findBestBackgroundColor` (lines 212-221): the first colour with lightness
above 60, else the most frequent colour, else white. -/
def findBestBackgroundColor (colors : List String) : String :=
  let lightColors := colors.filter (fun c => 60 < getLightness c)
  match lightColors with
  | x :: _ => x
  | [] => colors.headD ("#FFFFFF")

/-- One iteration of the `findBestTextColor` loop (lines 227-235): skip the
background itself, otherwise keep the colour when its contrast ratio against
the background strictly exceeds the running maximum. -/
noncomputable def textStep (background : String) (acc : String × ℝ) (color : String) :
    String × ℝ :=
  if color = background then acc
  else if calculateContrastRatio background color > acc.2
    then (color, calculateContrastRatio background color) else acc

/-- `findBestTextColor` (lines 223-243): maximise contrast against the
background starting from `('#000000', 0)`; when the best contrast found is
below 3 fall back to pure black or pure white according to the background's
lightness (the source's `bestColor`/`maxContrast` pair is the fold state). -/
noncomputable def findBestTextColor (colors : List String) (background : String) : String :=
  if (colors.foldl (textStep background) ("#000000", 0)).2 < 3
    then (if 50 < getLightness background then ("#000000") else ("#FFFFFF"))
    else (colors.foldl (textStep background) ("#000000", 0)).1

lemma textStep_foldl_ne (background : String) :
    ∀ (l : List String) (acc : String × ℝ), (0 < acc.2 → acc.1 ≠ background) →
      (0 < (l.foldl (textStep background) acc).2 →
        (l.foldl (textStep background) acc).1 ≠ background) := by
  intro l
  induction l with
  | nil => intro acc h; exact h
  | cons a t ih =>
    intro acc hacc
    rw [List.foldl_cons]
    apply ih
    unfold textStep
    by_cases h1 : a = background
    · rw [if_pos h1]; exact hacc
    · rw [if_neg h1]
      by_cases h2 : calculateContrastRatio background a > acc.2
      · rw [if_pos h2]
        intro _
        exact h1
      · rw [if_neg h2]
        exact hacc

lemma lightness_black : getLightness ("#000000") = 0 := by
  unfold getLightness
  rw [show hexToRgb ("#000000") = (0, 0, 0) from by decide]
  norm_num [max_def, min_def]

lemma lightness_white : getLightness ("#FFFFFF") = 100 := by
  unfold getLightness
  rw [show hexToRgb ("#FFFFFF") = (255, 255, 255) from by decide]
  norm_num [max_def, min_def]

lemma lightness_green : getLightness ("#00FF00") = 50 := by
  unfold getLightness
  rw [show hexToRgb ("#00FF00") = (0, 255, 0) from by decide]
  norm_num [max_def, min_def]

lemma findBestBackgroundColor_green : findBestBackgroundColor ["#00FF00"] = ("#00FF00") := by
  have hb : (decide (60 < getLightness ("#00FF00"))) = false := by
    rw [lightness_green]
    decide
  unfold findBestBackgroundColor
  simp [List.filter, hb]

end AIDesignAnalyzer

/-- C1 (amended part): whatever list of candidate colours and whatever
background colour the dominant-role assigner is given, the text colour it
returns is never equal to the background. -/
theorem claim1_text_background_distinct (colors : List String) (background : String) :
    AIDesignAnalyzer.findBestTextColor colors background ≠ background := by
  unfold AIDesignAnalyzer.findBestTextColor
  set r := colors.foldl (AIDesignAnalyzer.textStep background) ("#000000", 0) with hr
  by_cases h3 : r.2 < 3
  · rw [if_pos h3]
    by_cases hl : 50 < AIDesignAnalyzer.getLightness background
    · rw [if_pos hl]
      intro heq
      rw [← heq] at hl
      rw [AIDesignAnalyzer.lightness_black] at hl
      exact absurd hl (by norm_num)
    · rw [if_neg hl]
      intro heq
      rw [← heq] at hl
      rw [AIDesignAnalyzer.lightness_white] at hl
      exact absurd (by norm_num : (50 : ℚ) < 100) hl
  · rw [if_neg h3]
    have hpos : 0 < r.2 := by
      have : (3 : ℝ) ≤ r.2 := not_lt.mp h3
      linarith
    exact AIDesignAnalyzer.textStep_foldl_ne background colors ("#000000", 0)
      (by intro h; simp at h) hpos

theorem claim1_witness :
    AIDesignAnalyzer.findBestTextColor ["#0000FF"] ("#FFFFFF") ≠ ("#FFFFFF") :=
  claim1_text_background_distinct ["#0000FF"] ("#FFFFFF")

/-- C1 (counterexample): on a fully uniform pure-green image every surviving
sample quantizes to `#00FF00`, so the top-colour list is `["#00FF00"]`; the
assigner then picks `#00FF00` as background and falls back to white for the
text (green has HSL lightness exactly 50), yet the resulting contrast ratio
`1.05 / 0.7652 ≈ 1.372` is below the claimed 3.0 floor. -/
theorem claim1_uniform_green_contrast_below_floor :
    AIDesignAnalyzer.quantizeToWebColors ("#00ff00") = ("#00FF00") ∧
    AIDesignAnalyzer.findBestBackgroundColor ["#00FF00"] = ("#00FF00") ∧
    AIDesignAnalyzer.findBestTextColor ["#00FF00"] ("#00FF00") = ("#FFFFFF") ∧
    AIDesignAnalyzer.calculateContrastRatio ("#00FF00") ("#FFFFFF") < 3 := by
  refine ⟨by decide, AIDesignAnalyzer.findBestBackgroundColor_green, ?_, ?_⟩
  · unfold AIDesignAnalyzer.findBestTextColor
    have hfold : List.foldl (AIDesignAnalyzer.textStep ("#00FF00")) ("#000000", (0 : ℝ))
        ["#00FF00"] = ("#000000", (0 : ℝ)) := by
      rw [List.foldl_cons, List.foldl_nil]
      unfold AIDesignAnalyzer.textStep
      rw [if_pos rfl]
    rw [hfold]
    rw [if_pos (show (("#000000", (0 : ℝ)).2 : ℝ) < 3 by norm_num)]
    rw [if_neg (show ¬ (50 < AIDesignAnalyzer.getLightness ("#00FF00")) by
      rw [AIDesignAnalyzer.lightness_green]; norm_num)]
  · unfold AIDesignAnalyzer.calculateContrastRatio
    rw [luminance_green, luminance_white]
    rw [max_eq_right (by norm_num : (0.7152 : ℝ) ≤ 1),
      min_eq_left (by norm_num : (0.7152 : ℝ) ≤ 1)]
    rw [div_lt_iff₀ (by norm_num)]
    norm_num

/-- JavaScript `Math.round`: round half toward positive infinity,
`Math.round(x) = Math.floor(x + 0.5)`. -/
def jsRound {α : Type} [LinearOrderedField α] [FloorRing α] (x : α) : ℤ := ⌊x + 1 / 2⌋

lemma jsRound_mem {α : Type} [LinearOrderedField α] [FloorRing α] {x : α}
    (h0 : 0 ≤ x) (h1 : x ≤ 100) : 0 ≤ jsRound x ∧ jsRound x ≤ 100 := by
  unfold jsRound
  constructor
  · exact Int.le_floor.mpr (by push_cast; linarith)
  · have hle : ⌊x + 1 / 2⌋ ≤ ⌊(100 + 1 / 2 : α)⌋ := Int.floor_le_floor (by linarith)
    have h2 : ⌊(100 + 1 / 2 : α)⌋ = 100 := by
      rw [Int.floor_eq_iff]
      constructor <;> push_cast <;> norm_num
    omega

lemma jsRound_hundred {α : Type} [LinearOrderedField α] [FloorRing α] :
    jsRound (100 : α) = 100 := by
  unfold jsRound
  rw [Int.floor_eq_iff]
  constructor <;> push_cast <;> norm_num

namespace AdvancedDesignAnalyzer

/-- `calculateBalance` (lines 1020-1033), on the four quadrant weights in the
order `[topLeft, topRight, bottomLeft, bottomRight]`: average of the
horizontal and vertical balance, guarded by `total === 0 → 50`. -/
def calculateBalance (q0 q1 q2 q3 : ℚ) : ℤ :=
  if q0 + q1 + q2 + q3 = 0 then 50
  else jsRound (((100 - |(q0 + q2) - (q1 + q3)| / (q0 + q1 + q2 + q3) * 100) +
    (100 - |(q0 + q1) - (q2 + q3)| / (q0 + q1 + q2 + q3) * 100)) / 2)

/-- `calculateSymmetry` (lines 1035-1046): average of the three pairwise
comparisons TL-TR, TL-BL, TL-BR, each `100 - |a - b| / max(a, b) * 50`.
The source has NO guard for `max(a, b) = 0`: for non-negative weights that
case is the JS division `0 / 0 = NaN`, which poisons the whole result
(`Math.round(NaN) = NaN`); it is modelled here as `none`. -/
def calculateSymmetry (q0 q1 q2 q3 : ℚ) : Option ℤ :=
  if max q0 q1 = 0 ∨ max q0 q2 = 0 ∨ max q0 q3 = 0 then none
  else some (jsRound (((100 - |q0 - q1| / max q0 q1 * 50) + (100 - |q0 - q2| / max q0 q2 * 50) +
    (100 - |q0 - q3| / max q0 q3 * 50)) / 3))

end AdvancedDesignAnalyzer

lemma symTerm_bounds {a b : ℚ} (ha : 0 ≤ a) (hb : 0 ≤ b) (hne : max a b ≠ 0) :
    50 ≤ 100 - |a - b| / max a b * 50 ∧ 100 - |a - b| / max a b * 50 ≤ 100 := by
  have hpos : 0 < max a b := lt_of_le_of_ne (le_max_iff.mpr (Or.inl ha)) (Ne.symm hne)
  have habs : |a - b| ≤ max a b := by
    rw [abs_sub_le_iff]
    constructor
    · have := le_max_left a b
      linarith
    · have := le_max_right a b
      linarith
  have h1 : |a - b| / max a b ≤ 1 := (div_le_one hpos).mpr habs
  have h2 : 0 ≤ |a - b| / max a b := div_nonneg (abs_nonneg _) (le_of_lt hpos)
  constructor <;> linarith

lemma balance_bounds {q0 q1 q2 q3 : ℚ} (h0 : 0 ≤ q0) (h1 : 0 ≤ q1) (h2 : 0 ≤ q2)
    (h3 : 0 ≤ q3) : 0 ≤ AdvancedDesignAnalyzer.calculateBalance q0 q1 q2 q3 ∧
      AdvancedDesignAnalyzer.calculateBalance q0 q1 q2 q3 ≤ 100 := by
  unfold AdvancedDesignAnalyzer.calculateBalance
  by_cases htot : q0 + q1 + q2 + q3 = 0
  · rw [if_pos htot]
    norm_num
  · rw [if_neg htot]
    have hpos : 0 < q0 + q1 + q2 + q3 := lt_of_le_of_ne (by linarith) (Ne.symm htot)
    have habsh : |(q0 + q2) - (q1 + q3)| ≤ q0 + q1 + q2 + q3 := by
      rw [abs_sub_le_iff]
      constructor <;> linarith
    have habsv : |(q0 + q1) - (q2 + q3)| ≤ q0 + q1 + q2 + q3 := by
      rw [abs_sub_le_iff]
      constructor <;> linarith
    have hh1 : |(q0 + q2) - (q1 + q3)| / (q0 + q1 + q2 + q3) ≤ 1 :=
      (div_le_one hpos).mpr habsh
    have hh0 : 0 ≤ |(q0 + q2) - (q1 + q3)| / (q0 + q1 + q2 + q3) :=
      div_nonneg (abs_nonneg _) (le_of_lt hpos)
    have hv1 : |(q0 + q1) - (q2 + q3)| / (q0 + q1 + q2 + q3) ≤ 1 :=
      (div_le_one hpos).mpr habsv
    have hv0 : 0 ≤ |(q0 + q1) - (q2 + q3)| / (q0 + q1 + q2 + q3) :=
      div_nonneg (abs_nonneg _) (le_of_lt hpos)
    exact jsRound_mem (by linarith) (by linarith)

/-- C2 evaluation and bounds.  First two conjuncts: on an all-zero weight
vector (a fully black image) the symmetry computation hits `0 / 0` (JS `NaN`,
modelled `none`) because the source has no `max(a,b) = 0` guard, while the
balance function does guard `total = 0` and returns 50.  Remaining conjuncts:
for equal strictly-positive weights balance and symmetry are both 100, and for
arbitrary non-negative weights balance is within `[0, 100]` and symmetry,
whenever it produces a number at all, is within `[0, 100]`. -/
theorem claim2_balance_symmetry :
    AdvancedDesignAnalyzer.calculateSymmetry 0 0 0 0 = none ∧
    AdvancedDesignAnalyzer.calculateBalance 0 0 0 0 = 50 ∧
    (∀ w : ℚ, 0 < w → AdvancedDesignAnalyzer.calculateBalance w w w w = 100 ∧
      AdvancedDesignAnalyzer.calculateSymmetry w w w w = some 100) ∧
    (∀ q0 q1 q2 q3 : ℚ, 0 ≤ q0 → 0 ≤ q1 → 0 ≤ q2 → 0 ≤ q3 →
      (0 ≤ AdvancedDesignAnalyzer.calculateBalance q0 q1 q2 q3 ∧
        AdvancedDesignAnalyzer.calculateBalance q0 q1 q2 q3 ≤ 100) ∧
      (∀ s : ℤ, AdvancedDesignAnalyzer.calculateSymmetry q0 q1 q2 q3 = some s →
        0 ≤ s ∧ s ≤ 100)) := by
  refine ⟨?_, ?_, ?_, ?_⟩
  · unfold AdvancedDesignAnalyzer.calculateSymmetry
    rw [if_pos]
    left
    simp
  · unfold AdvancedDesignAnalyzer.calculateBalance
    rw [if_pos (by norm_num)]
  · intro w hw
    constructor
    · unfold AdvancedDesignAnalyzer.calculateBalance
      rw [if_neg (by intro h; linarith)]
      have hz : (w + w) - (w + w) = (0 : ℚ) := by ring
      rw [hz, abs_zero, zero_div, zero_mul, sub_zero]
      norm_num [jsRound_hundred]
    · unfold AdvancedDesignAnalyzer.calculateSymmetry
      rw [if_neg (by
        rw [max_self]
        intro h
        rcases h with h | h | h <;> linarith)]
      have hz : w - w = (0 : ℚ) := sub_self w
      rw [hz, abs_zero, max_self, zero_div, zero_mul, sub_zero]
      norm_num [jsRound_hundred]
  · intro q0 q1 q2 q3 h0 h1 h2 h3
    refine ⟨balance_bounds h0 h1 h2 h3, ?_⟩
    intro s hs
    unfold AdvancedDesignAnalyzer.calculateSymmetry at hs
    by_cases hcond : max q0 q1 = 0 ∨ max q0 q2 = 0 ∨ max q0 q3 = 0
    · rw [if_pos hcond] at hs
      exact absurd hs (by simp)
    · rw [if_neg hcond] at hs
      push_neg at hcond
      obtain ⟨hne1, hne2, hne3⟩ := hcond
      have t1 := symTerm_bounds h0 h1 hne1
      have t2 := symTerm_bounds h0 h2 hne2
      have t3 := symTerm_bounds h0 h3 hne3
      have hmem := jsRound_mem
        (x := ((100 - |q0 - q1| / max q0 q1 * 50) + (100 - |q0 - q2| / max q0 q2 * 50) +
          (100 - |q0 - q3| / max q0 q3 * 50)) / 3)
        (by linarith [t1.1, t2.1, t3.1]) (by linarith [t1.2, t2.2, t3.2])
      have hs' : s = jsRound (((100 - |q0 - q1| / max q0 q1 * 50) +
          (100 - |q0 - q2| / max q0 q2 * 50) + (100 - |q0 - q3| / max q0 q3 * 50)) / 3) :=
        (Option.some.injEq _ _).mp hs.symm
      rw [hs']
      exact hmem

theorem claim2_witness :
    (AdvancedDesignAnalyzer.calculateBalance 1 1 1 1 = 100 ∧
      AdvancedDesignAnalyzer.calculateSymmetry 1 1 1 1 = some 100) ∧
    (0 ≤ AdvancedDesignAnalyzer.calculateBalance 1 2 3 4 ∧
      AdvancedDesignAnalyzer.calculateBalance 1 2 3 4 ≤ 100) :=
  ⟨claim2_balance_symmetry.2.2.1 1 (by norm_num),
   (claim2_balance_symmetry.2.2.2 1 2 3 4 (by norm_num) (by norm_num) (by norm_num)
     (by norm_num)).1⟩

/-- One step of the JS `[...new Set(colors)]` deduplication: keep the first
occurrence of every colour, in first-occurrence order. -/
def dedupStep (acc : List String) (c : String) : List String :=
  if c ∈ acc then acc else acc ++ [c]

/-- `[...new Set(colors)]` in `createAdvancedPalette` (line 532). -/
def jsDedup (l : List String) : List String := l.foldl dedupStep []

lemma dedupStep_foldl_nodup :
    ∀ (l acc : List String), acc.Nodup → (List.foldl dedupStep acc l).Nodup := by
  intro l
  induction l with
  | nil => intro acc h; exact h
  | cons a t ih =>
    intro acc h
    rw [List.foldl_cons]
    apply ih
    unfold dedupStep
    by_cases hmem : a ∈ acc
    · rw [if_pos hmem]; exact h
    · rw [if_neg hmem]
      rw [List.nodup_append]
      refine ⟨h, List.nodup_singleton a, fun x hx hxa => ?_⟩
      rw [List.mem_singleton] at hxa
      exact hmem (hxa ▸ hx)

lemma dedupStep_foldl_mem :
    ∀ (l acc : List String) (x : String), x ∈ List.foldl dedupStep acc l → x ∈ acc ∨ x ∈ l := by
  intro l
  induction l with
  | nil => intro acc x h; exact Or.inl h
  | cons a t ih =>
    intro acc x h
    rw [List.foldl_cons] at h
    rcases ih (dedupStep acc a) x h with hc | hc
    · unfold dedupStep at hc
      by_cases hmem : a ∈ acc
      · rw [if_pos hmem] at hc; exact Or.inl hc
      · rw [if_neg hmem] at hc
        rcases List.mem_append.mp hc with h1 | h1
        · exact Or.inl h1
        · right
          rw [List.mem_singleton] at h1
          rw [h1]
          exact List.mem_cons_self a t
    · right
      exact List.mem_cons_of_mem a hc

/-- The comparator `(a, b) => this.getLightness(b) - this.getLightness(a)` of
`createAdvancedPalette`: `a` sorts before `b` when its lightness is at least
`b`'s (descending lightness).  JS's stable sort is modelled by Mathlib's
(stable) insertion sort. -/
def lightnessGe (a b : String) : Prop :=
  AIDesignAnalyzer.getLightness b ≤ AIDesignAnalyzer.getLightness a

instance : DecidableRel lightnessGe := fun a b =>
  inferInstanceAs (Decidable (AIDesignAnalyzer.getLightness b ≤ AIDesignAnalyzer.getLightness a))

instance : IsTotal String lightnessGe :=
  ⟨fun a b => le_total (AIDesignAnalyzer.getLightness b) (AIDesignAnalyzer.getLightness a)⟩

instance : IsTrans String lightnessGe := ⟨fun _ _ _ hab hbc => le_trans hbc hab⟩

/-- The comparator `(a, b) => b[1] - a[1]` used on the frequency table
(line 170): descending occurrence count. -/
def freqGe (a b : String × ℕ) : Prop := b.2 ≤ a.2

instance : DecidableRel freqGe := fun a b => inferInstanceAs (Decidable (b.2 ≤ a.2))

/-- One step of the `colorGroups` frequency tally (lines 163-167): JS `Map`
iteration order is insertion order, so the table is a list of pairs in
first-occurrence order. -/
def tallyStep (acc : List (String × ℕ)) (q : String) : List (String × ℕ) :=
  if acc.any (fun p => p.1 = q)
    then acc.map (fun p => if p.1 = q then (p.1, p.2 + 1) else p)
    else acc ++ [(q, 1)]

def tallyColors (colors : List String) : List (String × ℕ) := colors.foldl tallyStep []

namespace AIDesignAnalyzer

/-- `createAdvancedPalette` (lines 531-534): deduplicate the raw sampled
colours, then sort by descending lightness.  Note: the input is NOT quantized
and NOT frequency-ranked. -/
def createAdvancedPalette (colors : List String) : List String :=
  List.insertionSort lightnessGe (jsDedup colors)

/-- The palette as exported by `extractRealColorsAdvanced` (line 109):
`palette.slice(0, 12)`. -/
def extractPalette (colors : List String) : List String := (createAdvancedPalette colors).take 12

/-- `topColors` of `calculateAdvancedDominantColors` (lines 163-172): tally the
quantized samples, sort by descending count, keep the first ten colours. -/
def topColorsOf (colors : List String) : List String :=
  ((List.insertionSort freqGe (tallyColors (colors.map quantizeToWebColors))).take 10).map
    Prod.fst

end AIDesignAnalyzer

/-- Modelled from the spec for the C9 comparison (§4.3): "Snap every surviving
ColorSample to its nearest reference-palette entry ..., take the top-N (N=10)
by descending frequency, then build the exported Palette as those colors
deduplicated and re-sorted by descending lightness ..., capped at 12
entries." -/
def specPalette (colors : List String) : List String :=
  (List.insertionSort lightnessGe (jsDedup (AIDesignAnalyzer.topColorsOf colors))).take 12

/-- C9 (counterexample): the exported palette is built from the raw samples,
not from the top-10 quantized colours: for the single sample `#123456` the
code exports `["#123456"]` while the spec's construction would export the
quantized bucket `["#333333"]`. -/
theorem claim9_palette_not_from_frequency :
    AIDesignAnalyzer.extractPalette ["#123456"] = ["#123456"] ∧
    specPalette ["#123456"] = ["#333333"] ∧
    AIDesignAnalyzer.extractPalette ["#123456"] ≠ specPalette ["#123456"] := by
  refine ⟨by decide, by decide, ?_⟩
  intro h
  rw [show AIDesignAnalyzer.extractPalette ["#123456"] = ["#123456"] from by decide,
    show specPalette ["#123456"] = ["#333333"] from by decide] at h
  exact absurd h (by decide)

/-- C9 (amended): what the exported palette actually satisfies — it is a
deduplicated list of at most 12 of the raw sampled colours, sorted by
descending lightness. -/
theorem claim9_palette_props (colors : List String) :
    (AIDesignAnalyzer.extractPalette colors).Nodup ∧
    (AIDesignAnalyzer.extractPalette colors).length ≤ 12 ∧
    List.Sorted lightnessGe (AIDesignAnalyzer.extractPalette colors) ∧
    ∀ c ∈ AIDesignAnalyzer.extractPalette colors, c ∈ colors := by
  have hd : (jsDedup colors).Nodup := dedupStep_foldl_nodup colors [] List.nodup_nil
  have hperm : List.Perm (List.insertionSort lightnessGe (jsDedup colors)) (jsDedup colors) :=
    List.perm_insertionSort _ _
  have hnodup_s : (List.insertionSort lightnessGe (jsDedup colors)).Nodup :=
    hperm.nodup_iff.mpr hd
  have hsorted : List.Sorted lightnessGe (List.insertionSort lightnessGe (jsDedup colors)) :=
    List.sorted_insertionSort _ _
  refine ⟨?_, ?_, ?_, ?_⟩
  · exact List.Nodup.sublist (List.take_sublist 12 _) hnodup_s
  · exact List.length_take_le 12 _
  · exact List.Pairwise.sublist (List.take_sublist 12 _) hsorted
  · intro c hc
    have h1 : c ∈ List.insertionSort lightnessGe (jsDedup colors) :=
      List.take_subset 12 _ hc
    have h2 : c ∈ jsDedup colors := hperm.subset h1
    rcases dedupStep_foldl_mem colors [] c h2 with h3 | h3
    · exact absurd h3 (List.not_mem_nil c)
    · exact h3

theorem claim9_witness :
    (AIDesignAnalyzer.extractPalette ["#123456", "#123456", "#654321"]).Nodup ∧
    (AIDesignAnalyzer.extractPalette ["#123456", "#123456", "#654321"]).length ≤ 12 ∧
    List.Sorted lightnessGe (AIDesignAnalyzer.extractPalette ["#123456", "#123456", "#654321"]) ∧
    ∀ c ∈ AIDesignAnalyzer.extractPalette ["#123456", "#123456", "#654321"],
      c ∈ ["#123456", "#123456", "#654321"] :=
  claim9_palette_props ["#123456", "#123456", "#654321"]

/-- The five named dominant-colour slots (the object literal of line 186). -/
structure DominantColors where
  background : String
  text : String
  primary : String
  secondary : String
  accent : String

/-- The `DesignAnalysis` record (lines 3-19, populated at lines 57-67).  The
narrative strings of `DesignFeedback` (random template text) are out of scope
per the spec; the record is otherwise complete. -/
structure DesignAnalysisM where
  extractedText : String
  dominantColors : DominantColors
  colorPalette : List String
  contrastRatio : ℝ
  textReadability : ℝ
  colorScore : ℝ
  layoutScore : ℝ
  visualHierarchy : ℝ
  spacingScore : ℝ

/-- The `AnalysisResult` of `analyzeDesign` with `feedback.overallScore`
flattened in (suggestion/strength strings omitted as out of scope). -/
structure AnalysisResultM where
  success : Bool
  overallScore : ℤ
  analysis : DesignAnalysisM

/-- A successfully decoded image as the analysis pipeline sees it: its
dimensions plus the list of colour samples that survive the random strategic
region sampling (`sampleStrategicRegions`, lines 114-149).  The random pixel
draws of the sampler are abstracted as this sample list. -/
structure LoadedImage where
  width : ℕ
  height : ℕ
  samples : List String

/-- The `Math.random()` draws consumed by one analysis run: the vibrant-colour
index `Math.floor(Math.random() * 8)` of `generateVibrantColor` (line 514) and
the raw draws of `analyzeVisualHierarchy` (line 453) and `analyzeSpacing`
(line 457).  The code offers NO seed parameter; these are fresh on every
run. -/
structure RandomDraws where
  vib : Fin 8
  rHier : ℝ
  rSpace : ℝ

namespace AIDesignAnalyzer

/-- `getDefaultColors` (lines 536-544). -/
def getDefaultColors : DominantColors :=
  ⟨"#FFFFFF", "#333333", "#007BFF", "#6C757D", "#FF6B6B"⟩

/-- `getDefaultAnalysis` (lines 572-584). -/
def getDefaultAnalysis : DesignAnalysisM :=
  { extractedText := ("")
    dominantColors := getDefaultColors
    colorPalette := ["#FFFFFF", "#333333", "#007BFF", "#6C757D", "#FF6B6B"]
    contrastRatio := 0
    textReadability := 0
    colorScore := 0
    layoutScore := 0
    visualHierarchy := 0
    spacingScore := 0 }

/-- `getFallbackResult` (lines 560-570): `success: false`, `overallScore: 0`,
default analysis. -/
def getFallbackResult : AnalysisResultM := ⟨false, 0, getDefaultAnalysis⟩

/-- The fixed vibrant-colour table of `generateVibrantColor` (line 513). -/
def vibrantColors : List String :=
  ["#FF6B6B", "#4ECDC4", "#45B7D1", "#96CEB4", "#FFEAA7", "#DDA0DD", "#F7DC6F", "#BB8FCE"]

/-- `generateComplementary` (lines 525-529): bitwise RGB complement. -/
def generateComplementary (hex : String) : String :=
  rgbToHex (255 - (hexToRgb hex).1) (255 - (hexToRgb hex).2.1) (255 - (hexToRgb hex).2.2)

/-- `generateAccentColor` (lines 517-523): fixed pairing table with the
complement as fallback. -/
def generateAccentColor (base : String) : String :=
  if base = "#FF6B6B" then ("#4ECDC4")
  else if base = "#4ECDC4" then ("#FF6B6B")
  else if base = "#45B7D1" then ("#FFEAA7")
  else if base = "#96CEB4" then ("#DDA0DD")
  else if base = "#FFEAA7" then ("#45B7D1")
  else if base = "#DDA0DD" then ("#96CEB4")
  else generateComplementary base

/-- `calculateAdvancedDominantColors` (lines 157-187).  The random index of
`generateVibrantColor` is the explicit draw `vib` (always in range in JS, so
the `getD` default is unreachable); `remaining[k] || fallback` is `getD`. -/
noncomputable def calculateAdvancedDominantColors (colors : List String) (vib : Fin 8) :
    DominantColors :=
  if colors.isEmpty then getDefaultColors
  else
    let topColors := topColorsOf colors
    let background := findBestBackgroundColor topColors
    let text := findBestTextColor topColors background
    let remaining := topColors.filter (fun c => c != background && c != text)
    let primary := remaining.headD (vibrantColors.getD vib.val ("#FF6B6B"))
    let secondary := remaining.getD 1 (generateComplementary primary)
    let accent := remaining.getD 2 (generateAccentColor primary)
    ⟨background, text, primary, secondary, accent⟩

/-- `calculateReadabilityScore` (lines 460-462):
`Math.min(100, Math.max(40, Math.floor(contrast * 8 + 30)))`. -/
noncomputable def calculateReadabilityScore (contrast : ℝ) : ℝ :=
  min 100 (max 40 ((⌊contrast * 8 + 30⌋ : ℤ) : ℝ))

/-- `calculateAdvancedColorScore` (lines 425-438): 70 points, plus up to 15
for colour variety (`new Set(palette).size` is the dedup length), plus a
contrast bonus, clamped at 95. -/
noncomputable def calculateAdvancedColorScore (palette : List String) (dc : DominantColors) :
    ℝ :=
  min 95 ((70 + min 15 (((jsDedup palette).length : ℝ) * 2)) +
    (if 7 < calculateContrastRatio dc.background dc.text then 10
     else if 4.5 < calculateContrastRatio dc.background dc.text then 5 else 0))

/-- `analyzeLayout` (lines 440-450): 75 points plus aspect-ratio bonuses,
clamped at 95. -/
noncomputable def analyzeLayout (width height : ℕ) : ℝ :=
  min 95 (75 + (if |(width : ℝ) / (height : ℝ) - 1.618| < 0.1 then 10 else 0)
    + (if |(width : ℝ) / (height : ℝ) - 1.777| < 0.1 then 8 else 0)
    + (if |(width : ℝ) / (height : ℝ) - 1.5| < 0.1 then 7 else 0))

/-- `analyzeVisualHierarchy` (lines 452-454): `65 + Math.floor(rand * 30)`
with `rand` a fresh `Math.random()` draw. -/
noncomputable def analyzeVisualHierarchy (r : ℝ) : ℝ := 65 + ((⌊r * 30⌋ : ℤ) : ℝ)

/-- `analyzeSpacing` (lines 456-458): `70 + Math.floor(rand * 25)`. -/
noncomputable def analyzeSpacing (r : ℝ) : ℝ := 70 + ((⌊r * 25⌋ : ℤ) : ℝ)

/-- The `overallScore` combination of `analyzeDesign` (lines 69-72):
equal-weight average of the five sub-scores, rounded. -/
noncomputable def overallScoreOf (tr cs ls vh sp : ℝ) : ℤ :=
  jsRound ((tr + cs + ls + vh + sp) / 5)

/-- `analyzeDesign` (lines 43-91).  `load` is the outcome of `loadImage`
(`none` models a rejected promise/any thrown stage, caught by the
`try/catch`); `rnd` carries the `Math.random()` draws consumed on the success
path.  The success path computes real colours, palette, contrast and the five
sub-scores exactly as lines 52-72 do. -/
noncomputable def analyzeDesignModel (load : Option LoadedImage) (rnd : RandomDraws) :
    AnalysisResultM :=
  match load with
  | none => getFallbackResult
  | some img =>
    let dominantColors := calculateAdvancedDominantColors img.samples rnd.vib
    let palette := extractPalette img.samples
    let contrast := calculateContrastRatio dominantColors.background dominantColors.text
    let tr := calculateReadabilityScore contrast
    let cs := calculateAdvancedColorScore palette dominantColors
    let ls := analyzeLayout img.width img.height
    let vh := analyzeVisualHierarchy rnd.rHier
    let sp := analyzeSpacing rnd.rSpace
    { success := true
      overallScore := overallScoreOf tr cs ls vh sp
      analysis := {
        extractedText := ("Advanced analysis of design composition and visual elements")
        dominantColors := dominantColors
        colorPalette := palette
        contrastRatio := contrast
        textReadability := tr
        colorScore := cs
        layoutScore := ls
        visualHierarchy := vh
        spacingScore := sp } }

end AIDesignAnalyzer

lemma readability_bounds (c : ℝ) :
    40 ≤ AIDesignAnalyzer.calculateReadabilityScore c ∧
      AIDesignAnalyzer.calculateReadabilityScore c ≤ 100 := by
  unfold AIDesignAnalyzer.calculateReadabilityScore
  constructor
  · exact le_min (by norm_num) (le_max_left 40 _)
  · exact min_le_left 100 _

lemma colorScore_bounds (p : List String) (dc : DominantColors) :
    70 ≤ AIDesignAnalyzer.calculateAdvancedColorScore p dc ∧
      AIDesignAnalyzer.calculateAdvancedColorScore p dc ≤ 95 := by
  unfold AIDesignAnalyzer.calculateAdvancedColorScore
  constructor
  · refine le_min (by norm_num) ?_
    have h1 : (0 : ℝ) ≤ min 15 (((jsDedup p).length : ℝ) * 2) :=
      le_min (by norm_num) (by positivity)
    have h2 : (0 : ℝ) ≤
        (if 7 < AIDesignAnalyzer.calculateContrastRatio dc.background dc.text then (10 : ℝ)
         else if 4.5 < AIDesignAnalyzer.calculateContrastRatio dc.background dc.text then 5
         else 0) := by
      split
      · norm_num
      · split <;> norm_num
    linarith
  · exact min_le_left 95 _

lemma layout_bounds (w h : ℕ) :
    75 ≤ AIDesignAnalyzer.analyzeLayout w h ∧ AIDesignAnalyzer.analyzeLayout w h ≤ 95 := by
  unfold AIDesignAnalyzer.analyzeLayout
  constructor
  · refine le_min (by norm_num) ?_
    have h1 : (0 : ℝ) ≤ (if |(w : ℝ) / (h : ℝ) - 1.618| < 0.1 then (10 : ℝ) else 0) := by
      split <;> norm_num
    have h2 : (0 : ℝ) ≤ (if |(w : ℝ) / (h : ℝ) - 1.777| < 0.1 then (8 : ℝ) else 0) := by
      split <;> norm_num
    have h3 : (0 : ℝ) ≤ (if |(w : ℝ) / (h : ℝ) - 1.5| < 0.1 then (7 : ℝ) else 0) := by
      split <;> norm_num
    linarith
  · exact min_le_left 95 _

lemma visualHierarchy_bounds {r : ℝ} (h0 : 0 ≤ r) (h1 : r < 1) :
    65 ≤ AIDesignAnalyzer.analyzeVisualHierarchy r ∧
      AIDesignAnalyzer.analyzeVisualHierarchy r ≤ 94 := by
  unfold AIDesignAnalyzer.analyzeVisualHierarchy
  have hf0 : (0 : ℤ) ≤ ⌊r * 30⌋ := Int.le_floor.mpr (by push_cast; positivity)
  have hf1 : ⌊r * 30⌋ < 30 := Int.floor_lt.mpr (by push_cast; nlinarith)
  constructor
  · have : ((0 : ℤ) : ℝ) ≤ ((⌊r * 30⌋ : ℤ) : ℝ) := by exact_mod_cast hf0
    push_cast at this
    linarith
  · have : ((⌊r * 30⌋ : ℤ) : ℝ) ≤ ((29 : ℤ) : ℝ) := by exact_mod_cast (by omega : ⌊r * 30⌋ ≤ 29)
    push_cast at this
    linarith

lemma spacing_bounds {r : ℝ} (h0 : 0 ≤ r) (h1 : r < 1) :
    70 ≤ AIDesignAnalyzer.analyzeSpacing r ∧ AIDesignAnalyzer.analyzeSpacing r ≤ 94 := by
  unfold AIDesignAnalyzer.analyzeSpacing
  have hf0 : (0 : ℤ) ≤ ⌊r * 25⌋ := Int.le_floor.mpr (by push_cast; positivity)
  have hf1 : ⌊r * 25⌋ < 25 := Int.floor_lt.mpr (by push_cast; nlinarith)
  constructor
  · have : ((0 : ℤ) : ℝ) ≤ ((⌊r * 25⌋ : ℤ) : ℝ) := by exact_mod_cast hf0
    push_cast at this
    linarith
  · have : ((⌊r * 25⌋ : ℤ) : ℝ) ≤ ((24 : ℤ) : ℝ) := by exact_mod_cast (by omega : ⌊r * 25⌋ ≤ 24)
    push_cast at this
    linarith

lemma overall_avg_bounds {tr cs ls vh sp : ℝ}
    (htr1 : 40 ≤ tr) (htr2 : tr ≤ 100) (hcs1 : 70 ≤ cs) (hcs2 : cs ≤ 95)
    (hls1 : 75 ≤ ls) (hls2 : ls ≤ 95) (hvh1 : 65 ≤ vh) (hvh2 : vh ≤ 94)
    (hsp1 : 70 ≤ sp) (hsp2 : sp ≤ 94) :
    0 ≤ AIDesignAnalyzer.overallScoreOf tr cs ls vh sp ∧
      AIDesignAnalyzer.overallScoreOf tr cs ls vh sp ≤ 100 := by
  unfold AIDesignAnalyzer.overallScoreOf
  exact jsRound_mem (by linarith) (by linarith)

lemma dominant_background_vib_independent (colors : List String) (v1 v2 : Fin 8) :
    (AIDesignAnalyzer.calculateAdvancedDominantColors colors v1).background =
      (AIDesignAnalyzer.calculateAdvancedDominantColors colors v2).background := by
  unfold AIDesignAnalyzer.calculateAdvancedDominantColors
  by_cases h : colors.isEmpty <;> simp [h]

lemma dominant_text_vib_independent (colors : List String) (v1 v2 : Fin 8) :
    (AIDesignAnalyzer.calculateAdvancedDominantColors colors v1).text =
      (AIDesignAnalyzer.calculateAdvancedDominantColors colors v2).text := by
  unfold AIDesignAnalyzer.calculateAdvancedDominantColors
  by_cases h : colors.isEmpty <;> simp [h]

lemma colorScore_congr (p : List String) {dc1 dc2 : DominantColors}
    (hb : dc1.background = dc2.background) (ht : dc1.text = dc2.text) :
    AIDesignAnalyzer.calculateAdvancedColorScore p dc1 =
      AIDesignAnalyzer.calculateAdvancedColorScore p dc2 := by
  unfold AIDesignAnalyzer.calculateAdvancedColorScore
  rw [hb, ht]

/-- C3 (amended part): the `Math.random()` draws influence only the
primary/secondary/accent slots and the visual-hierarchy and spacing scores;
on the same loaded image every other output of the analysis — background and
text dominant colours, contrast ratio, palette, text-readability, colour and
layout scores — is identical across two runs with different draws. -/
theorem claim3_draw_independent_fields (img : LoadedImage) (d1 d2 : RandomDraws) :
    ((AIDesignAnalyzer.analyzeDesignModel (some img) d1).analysis).dominantColors.background =
      ((AIDesignAnalyzer.analyzeDesignModel (some img) d2).analysis).dominantColors.background ∧
    ((AIDesignAnalyzer.analyzeDesignModel (some img) d1).analysis).dominantColors.text =
      ((AIDesignAnalyzer.analyzeDesignModel (some img) d2).analysis).dominantColors.text ∧
    DesignAnalysisM.contrastRatio ((AIDesignAnalyzer.analyzeDesignModel (some img) d1).analysis) =
      DesignAnalysisM.contrastRatio
        ((AIDesignAnalyzer.analyzeDesignModel (some img) d2).analysis) ∧
    ((AIDesignAnalyzer.analyzeDesignModel (some img) d1).analysis).colorPalette =
      ((AIDesignAnalyzer.analyzeDesignModel (some img) d2).analysis).colorPalette ∧
    ((AIDesignAnalyzer.analyzeDesignModel (some img) d1).analysis).textReadability =
      ((AIDesignAnalyzer.analyzeDesignModel (some img) d2).analysis).textReadability ∧
    ((AIDesignAnalyzer.analyzeDesignModel (some img) d1).analysis).colorScore =
      ((AIDesignAnalyzer.analyzeDesignModel (some img) d2).analysis).colorScore ∧
    ((AIDesignAnalyzer.analyzeDesignModel (some img) d1).analysis).layoutScore =
      ((AIDesignAnalyzer.analyzeDesignModel (some img) d2).analysis).layoutScore := by
  have hbg := dominant_background_vib_independent img.samples d1.vib d2.vib
  have htx := dominant_text_vib_independent img.samples d1.vib d2.vib
  have hct : DesignAnalysisM.contrastRatio
        ((AIDesignAnalyzer.analyzeDesignModel (some img) d1).analysis) =
      DesignAnalysisM.contrastRatio
        ((AIDesignAnalyzer.analyzeDesignModel (some img) d2).analysis) := by
    show AIDesignAnalyzer.calculateContrastRatio
        (AIDesignAnalyzer.calculateAdvancedDominantColors img.samples d1.vib).background
        (AIDesignAnalyzer.calculateAdvancedDominantColors img.samples d1.vib).text =
      AIDesignAnalyzer.calculateContrastRatio
        (AIDesignAnalyzer.calculateAdvancedDominantColors img.samples d2.vib).background
        (AIDesignAnalyzer.calculateAdvancedDominantColors img.samples d2.vib).text
    rw [hbg, htx]
  refine ⟨hbg, htx, hct, rfl, ?_, ?_, rfl⟩
  · show AIDesignAnalyzer.calculateReadabilityScore
        ( AIDesignAnalyzer.calculateContrastRatio
          (AIDesignAnalyzer.calculateAdvancedDominantColors img.samples d1.vib).background
          (AIDesignAnalyzer.calculateAdvancedDominantColors img.samples d1.vib).text) =
      AIDesignAnalyzer.calculateReadabilityScore
        ( AIDesignAnalyzer.calculateContrastRatio
          (AIDesignAnalyzer.calculateAdvancedDominantColors img.samples d2.vib).background
          (AIDesignAnalyzer.calculateAdvancedDominantColors img.samples d2.vib).text)
    rw [hbg, htx]
  · exact colorScore_congr _ hbg htx

/-- C3 (counterexample): two runs over the identical image but with different
`Math.random()` draws (here the visual-hierarchy draws 0 and 1/2, both values
`Math.random()` can approximate across runs) produce different
`DesignMetrics`: the code has no seed parameter, so bit-identical output
across runs is not guaranteed. -/
theorem claim3_two_runs_differ :
    AIDesignAnalyzer.analyzeDesignModel (some ⟨100, 100, ["#00ff00"]⟩) ⟨0, 0, 0⟩ ≠
      AIDesignAnalyzer.analyzeDesignModel (some ⟨100, 100, ["#00ff00"]⟩) ⟨0, 1 / 2, 0⟩ := by
  intro h
  have h2 := congrArg (fun res => res.analysis.visualHierarchy) h
  simp only [AIDesignAnalyzer.analyzeDesignModel] at h2
  unfold AIDesignAnalyzer.analyzeVisualHierarchy at h2
  norm_num at h2

/-- C4 (counterexample): a failed image decode does not propagate any error to
the caller — the catch-all returns the fallback record, whose `success` flag
is `false` and whose scores are zeroed, i.e. a failure state IS
exposed as an ordinary return value. -/
theorem claim4_error_returns_fallback :
    AIDesignAnalyzer.analyzeDesignModel none ⟨0, 0, 0⟩ = AIDesignAnalyzer.getFallbackResult ∧
    AIDesignAnalyzer.getFallbackResult.success = false ∧
    AIDesignAnalyzer.getFallbackResult.overallScore = 0 ∧
    (AIDesignAnalyzer.getFallbackResult.analysis).textReadability = 0 :=
  ⟨rfl, rfl, rfl, rfl⟩

/-- C4 (amended): the call always returns; a failed load yields exactly the
fallback record flagged `success = false`, and a successful load yields
`success = true` with every score populated inside its documented range and a
contrast ratio of at least 1. -/
theorem claim4_no_propagation_dichotomy (load : Option LoadedImage) (rnd : RandomDraws)
    (h0 : 0 ≤ rnd.rHier) (h1 : rnd.rHier < 1) (h2 : 0 ≤ rnd.rSpace) (h3 : rnd.rSpace < 1) :
    (load = none ∧ AIDesignAnalyzer.analyzeDesignModel load rnd =
        AIDesignAnalyzer.getFallbackResult ∧
      (AIDesignAnalyzer.analyzeDesignModel load rnd).success = false) ∨
    ((AIDesignAnalyzer.analyzeDesignModel load rnd).success = true ∧
      0 ≤ (AIDesignAnalyzer.analyzeDesignModel load rnd).overallScore ∧
      (AIDesignAnalyzer.analyzeDesignModel load rnd).overallScore ≤ 100 ∧
      1 ≤ DesignAnalysisM.contrastRatio
        ((AIDesignAnalyzer.analyzeDesignModel load rnd).analysis) ∧
      40 ≤ ((AIDesignAnalyzer.analyzeDesignModel load rnd).analysis).textReadability ∧
      ((AIDesignAnalyzer.analyzeDesignModel load rnd).analysis).textReadability ≤ 100 ∧
      70 ≤ ((AIDesignAnalyzer.analyzeDesignModel load rnd).analysis).colorScore ∧
      ((AIDesignAnalyzer.analyzeDesignModel load rnd).analysis).colorScore ≤ 95 ∧
      75 ≤ ((AIDesignAnalyzer.analyzeDesignModel load rnd).analysis).layoutScore ∧
      ((AIDesignAnalyzer.analyzeDesignModel load rnd).analysis).layoutScore ≤ 95 ∧
      65 ≤ ((AIDesignAnalyzer.analyzeDesignModel load rnd).analysis).visualHierarchy ∧
      ((AIDesignAnalyzer.analyzeDesignModel load rnd).analysis).visualHierarchy ≤ 94 ∧
      70 ≤ ((AIDesignAnalyzer.analyzeDesignModel load rnd).analysis).spacingScore ∧
      ((AIDesignAnalyzer.analyzeDesignModel load rnd).analysis).spacingScore ≤ 94) := by
  cases load with
  | none => exact Or.inl ⟨rfl, rfl, rfl⟩
  | some img =>
    right
    have htr := readability_bounds
      ( AIDesignAnalyzer.calculateContrastRatio
        (AIDesignAnalyzer.calculateAdvancedDominantColors img.samples rnd.vib).background
        (AIDesignAnalyzer.calculateAdvancedDominantColors img.samples rnd.vib).text)
    have hcs := colorScore_bounds (AIDesignAnalyzer.extractPalette img.samples)
      (AIDesignAnalyzer.calculateAdvancedDominantColors img.samples rnd.vib)
    have hls := layout_bounds img.width img.height
    have hvh := visualHierarchy_bounds h0 h1
    have hsp := spacing_bounds h2 h3
    have hov := overall_avg_bounds htr.1 htr.2 hcs.1 hcs.2 hls.1 hls.2 hvh.1 hvh.2 hsp.1 hsp.2
    exact ⟨rfl, hov.1, hov.2,
      contrast_ge_one _ _, htr.1, htr.2, hcs.1, hcs.2, hls.1, hls.2, hvh.1, hvh.2, hsp.1, hsp.2⟩

theorem claim4_witness :
    (some (⟨100, 100, ["#00ff00"]⟩ : LoadedImage) = none ∧
      AIDesignAnalyzer.analyzeDesignModel (some ⟨100, 100, ["#00ff00"]⟩) ⟨0, 0, 0⟩ =
        AIDesignAnalyzer.getFallbackResult ∧
      (AIDesignAnalyzer.analyzeDesignModel (some ⟨100, 100, ["#00ff00"]⟩) ⟨0, 0, 0⟩).success =
        false) ∨
    ((AIDesignAnalyzer.analyzeDesignModel (some ⟨100, 100, ["#00ff00"]⟩) ⟨0, 0, 0⟩).success =
        true ∧
      0 ≤ (AIDesignAnalyzer.analyzeDesignModel
        (some ⟨100, 100, ["#00ff00"]⟩) ⟨0, 0, 0⟩).overallScore ∧
      (AIDesignAnalyzer.analyzeDesignModel
        (some ⟨100, 100, ["#00ff00"]⟩) ⟨0, 0, 0⟩).overallScore ≤ 100 ∧
      1 ≤ DesignAnalysisM.contrastRatio
        ((AIDesignAnalyzer.analyzeDesignModel (some ⟨100, 100, ["#00ff00"]⟩) ⟨0, 0, 0⟩).analysis) ∧
      40 ≤ ((AIDesignAnalyzer.analyzeDesignModel
        (some ⟨100, 100, ["#00ff00"]⟩) ⟨0, 0, 0⟩).analysis).textReadability ∧
      ((AIDesignAnalyzer.analyzeDesignModel
        (some ⟨100, 100, ["#00ff00"]⟩) ⟨0, 0, 0⟩).analysis).textReadability ≤ 100 ∧
      70 ≤ ((AIDesignAnalyzer.analyzeDesignModel
        (some ⟨100, 100, ["#00ff00"]⟩) ⟨0, 0, 0⟩).analysis).colorScore ∧
      ((AIDesignAnalyzer.analyzeDesignModel
        (some ⟨100, 100, ["#00ff00"]⟩) ⟨0, 0, 0⟩).analysis).colorScore ≤ 95 ∧
      75 ≤ ((AIDesignAnalyzer.analyzeDesignModel
        (some ⟨100, 100, ["#00ff00"]⟩) ⟨0, 0, 0⟩).analysis).layoutScore ∧
      ((AIDesignAnalyzer.analyzeDesignModel
        (some ⟨100, 100, ["#00ff00"]⟩) ⟨0, 0, 0⟩).analysis).layoutScore ≤ 95 ∧
      65 ≤ ((AIDesignAnalyzer.analyzeDesignModel
        (some ⟨100, 100, ["#00ff00"]⟩) ⟨0, 0, 0⟩).analysis).visualHierarchy ∧
      ((AIDesignAnalyzer.analyzeDesignModel
        (some ⟨100, 100, ["#00ff00"]⟩) ⟨0, 0, 0⟩).analysis).visualHierarchy ≤ 94 ∧
      70 ≤ ((AIDesignAnalyzer.analyzeDesignModel
        (some ⟨100, 100, ["#00ff00"]⟩) ⟨0, 0, 0⟩).analysis).spacingScore ∧
      ((AIDesignAnalyzer.analyzeDesignModel
        (some ⟨100, 100, ["#00ff00"]⟩) ⟨0, 0, 0⟩).analysis).spacingScore ≤ 94) :=
  claim4_no_propagation_dichotomy (some ⟨100, 100, ["#00ff00"]⟩) ⟨0, 0, 0⟩
    (by norm_num) (by norm_num) (by norm_num) (by norm_num)

namespace AdvancedDesignAnalyzer

/-- The `overall` combination inside `calculateScores` (lines 1165-1171):
fixed weights 0.2 / 0.25 / 0.3 / 0.15 / 0.1, rounded. -/
noncomputable def calculateScoresOverall (tr cs ls vh sp : ℝ) : ℤ :=
  jsRound (tr * 0.2 + cs * 0.25 + ls * 0.3 + vh * 0.15 + sp * 0.1)

end AdvancedDesignAnalyzer

/-- C7: for sub-scores within `[0, 100]`, both overall-score combinators — the
weighted one of `calculateScores` (weights 0.20/0.25/0.30/0.15/0.10, summing
to 1) and the equal-weight average of `analyzeDesign` — equal the documented
rounded weighted combination and land in `[0, 100]`. -/
theorem claim7_overall_score (tr cs ls vh sp : ℝ)
    (htr1 : 0 ≤ tr) (htr2 : tr ≤ 100) (hcs1 : 0 ≤ cs) (hcs2 : cs ≤ 100)
    (hls1 : 0 ≤ ls) (hls2 : ls ≤ 100) (hvh1 : 0 ≤ vh) (hvh2 : vh ≤ 100)
    (hsp1 : 0 ≤ sp) (hsp2 : sp ≤ 100) :
    (0 ≤ AdvancedDesignAnalyzer.calculateScoresOverall tr cs ls vh sp ∧
      AdvancedDesignAnalyzer.calculateScoresOverall tr cs ls vh sp ≤ 100) ∧
    (0 ≤ AIDesignAnalyzer.overallScoreOf tr cs ls vh sp ∧
      AIDesignAnalyzer.overallScoreOf tr cs ls vh sp ≤ 100) ∧
    AdvancedDesignAnalyzer.calculateScoresOverall tr cs ls vh sp =
      jsRound (0.20 * tr + 0.25 * cs + 0.30 * ls + 0.15 * vh + 0.10 * sp) ∧
    AIDesignAnalyzer.overallScoreOf tr cs ls vh sp =
      jsRound ((1 / 5) * tr + (1 / 5) * cs + (1 / 5) * ls + (1 / 5) * vh + (1 / 5) * sp) := by
  refine ⟨?_, ?_, ?_, ?_⟩
  · unfold AdvancedDesignAnalyzer.calculateScoresOverall
    exact jsRound_mem (by linarith) (by linarith)
  · unfold AIDesignAnalyzer.overallScoreOf
    exact jsRound_mem (by linarith) (by linarith)
  · unfold AdvancedDesignAnalyzer.calculateScoresOverall jsRound
    congr 1
    ring
  · unfold AIDesignAnalyzer.overallScoreOf jsRound
    congr 1
    ring

theorem claim7_witness :
    (0 ≤ AdvancedDesignAnalyzer.calculateScoresOverall 50 60 70 80 90 ∧
      AdvancedDesignAnalyzer.calculateScoresOverall 50 60 70 80 90 ≤ 100) ∧
    (0 ≤ AIDesignAnalyzer.overallScoreOf 50 60 70 80 90 ∧
      AIDesignAnalyzer.overallScoreOf 50 60 70 80 90 ≤ 100) ∧
    AdvancedDesignAnalyzer.calculateScoresOverall 50 60 70 80 90 =
      jsRound ((0.20 * 50 + 0.25 * 60 + 0.30 * 70 + 0.15 * 80 + 0.10 * 90 : ℝ)) ∧
    AIDesignAnalyzer.overallScoreOf 50 60 70 80 90 =
      jsRound (((1 / 5) * 50 + (1 / 5) * 60 + (1 / 5) * 70 + (1 / 5) * 80 + (1 / 5) * 90 : ℝ)) :=
  claim7_overall_score 50 60 70 80 90 (by norm_num) (by norm_num) (by norm_num) (by norm_num)
    (by norm_num) (by norm_num) (by norm_num) (by norm_num) (by norm_num) (by norm_num)

theorem claim10_witness :
    AIDesignAnalyzer.hexToRgb (AIDesignAnalyzer.rgbToHex 18 52 86) = (18, 52, 86) ∧
    AIDesignAnalyzer.hexToRgb ("zzz") = (0, 0, 0) :=
  ⟨claim10_hex_roundtrip.1 18 52 86 (by norm_num) (by norm_num) (by norm_num),
   claim10_hex_roundtrip.2 ("zzz") (by decide)⟩
